import Mathlib

/- Verification development for the flask-boilerplate repository.

The definitions below are a shallow embedding of the authentication gate,
the account-provisioning logic and the model introspector of
`src/logic.py` (together with the `Security` object of `src/app.py` and
the data model of `src/models.py`).  Python exceptions are represented by
an `Except` error value, the mutable request context (`flask.g` and the
session) by explicit state passing, and the user table by a list of
records. -/

namespace FlaskBP

deriving instance DecidableEq for Except

/-- Python runtime errors that the embedded code can raise. -/
inductive PyErr
  | attributeError
  | nameError
  | indexError
  | hashError
deriving Repr, DecidableEq

/-- A row of the `user` table (`models.User`): columns `name`, `email`,
`password_hash`, `status` (0 = blocked, 1 = active), `role`,
`login_token`, and the soft-delete flag `deleted` inherited from the
abstract `Model` base. -/
structure User where
  name : Option String
  email : String
  password_hash : String
  status : Nat
  role : String
  login_token : Option String
  deleted : Bool
deriving Repr, DecidableEq

/-- The per-request mutable context.  `gUser` models the `user` attribute
of `flask.g`: `none` means the attribute is absent, `some none` means
`g.user` is Python `None`, `some (some u)` means `g.user` is the record
`u`.  `sessionToken` models the `_user_token` entry of the Flask session:
`none` means the key is absent, `some none` means the key is present with
value `None`, `some (some t)` means it holds the token `t`. -/
structure RequestCtx where
  gUser : Option (Option User)
  sessionToken : Option (Option String)
deriving Repr, DecidableEq

/-- `session.get("_user_token")`: `None` both when the key is absent and
when it is present with value `None`. -/
def RequestCtx.sessionGet (ctx : RequestCtx) : Option String :=
  match ctx.sessionToken with
  | some (some t) => some t
  | _ => none

/-- Modelled from the spec: `models.User.get_by(login_token=...)` is called
by `get_current_user` but is not defined under `src/` (the `Model` base in
`src/models.py` has no `get_by`).  Per the spec's storage collaborator it
is a query-by-filter returning the stored user whose `login_token` column
matches, or no record when none matches. -/
def User.get_by (db : List User) (tok : String) : Option User :=
  db.find? (fun u => u.login_token == some tok)

/-- Embedding of `logic.get_current_user`.  Returns the resolved current
user (or `none`) together with the updated request context; raising a
Python exception is the `Except.error` case.  Note that after loading
`g.user` from storage the source dereferences `g.user.status`
unconditionally, which raises `AttributeError` when the token matched no
record. -/
def get_current_user (db : List User) (ctx : RequestCtx) :
    Except PyErr (Option User × RequestCtx) :=
  match ctx.gUser with
  | some (some u) => .ok (some u, ctx)
  | _ =>
    match ctx.sessionGet with
    | some tok =>
      let found := User.get_by db tok
      let ctx2 : RequestCtx := { ctx with gUser := some found }
      match found with
      | none => .error .attributeError
      | some u =>
        if u.status = 0 then
          .ok (none, { ctx2 with sessionToken := some none })
        else
          .ok (some u, ctx2)
    | none => .ok (none, ctx)

/-- Embedding of `logic.is_authenticated`. -/
def is_authenticated (db : List User) (ctx : RequestCtx) :
    Except PyErr (Bool × RequestCtx) :=
  (get_current_user db ctx).map (fun r => (r.1.isSome, r.2))

/-- Embedding of `logic.logout`: pop the `_user_token` session key when
present and set `g.user` to `None`. -/
def logout (ctx : RequestCtx) : RequestCtx :=
  let ctx1 :=
    if ctx.sessionToken.isSome then { ctx with sessionToken := none } else ctx
  { ctx1 with gUser := some none }

/-- The attributes of the `app.Security` object that `login_required`
consults.  The lookup of `is_authenticated` on that object is modelled by
an `Option`: `none` means the attribute does not exist (so reading it
raises `AttributeError`). -/
structure SecuritySelf where
  is_authenticated_attr : Option Bool
deriving Repr, DecidableEq

/-- The `Security` class of `src/app.py` defines `routes`, `init_app`,
`context_processor`, `unauthorized`, `logout`, `login_view` and
`signup_view` — and no `is_authenticated` attribute, so looking that
attribute up on the bound `current_app.security` object raises
`AttributeError`. -/
def appSecurity : SecuritySelf := ⟨none⟩

/-- Outcome of a request against a view wrapped by `login_required`. -/
inductive GuardOutcome
  | viewRan
  | unauthorizedRedirect
deriving Repr, DecidableEq

/-- Embedding of the view produced by `logic.login_required`: check the
request method against `set(["OPTIONS"])`, then the `LOGIN_DISABLED`
configuration flag, then `current_app.security.is_authenticated`, calling
`current_app.security.unauthorized()` when that attribute reads falsy. -/
def login_required (method : String) (loginDisabled : Bool)
    (sec : SecuritySelf) : Except PyErr GuardOutcome :=
  if method ∈ ["OPTIONS"] then .ok .viewRan
  else if loginDisabled then .ok .viewRan
  else
    match sec.is_authenticated_attr with
    | none => .error .attributeError
    | some false => .ok .unauthorizedRedirect
    | some true => .ok .viewRan

/-- Modelled from the spec: `models.User.query.filter_by(email=...)` is
used by `logic.email_is_available` (and by the tests) but `query` is not
defined under `src/`.  Per the spec's storage collaborator it is a
query-by-filter; `.first()` returns the first stored user whose `email`
column matches, or no record. -/
def queryFirstByEmail (db : List User) (e : String) : Option User :=
  db.find? (fun u => u.email == e)

/-- Embedding of `logic.email_is_available`. -/
def email_is_available (db : List User) (email : Option String) : Bool :=
  match email with
  | none => false
  | some e => (queryFirstByEmail db e).isNone

/-- Modelled from the spec: `Database.txn` is called by `create_user` and
the tests but is not defined on `models.Database` under `src/`.  Per the
spec it is a scoped transaction helper that commits on normal exit and
rolls back the entire body and re-raises on exception. -/
def txnRun {α : Type} (db : List User)
    (body : List User → Except PyErr (List User × α)) :
    Except PyErr α × List User :=
  match body db with
  | .ok (db2, a) => (.ok a, db2)
  | .error e => (.error e, db)

/-- Embedding of `logic.create_user`.  `hashPassword` stands for
werkzeug's `generate_password_hash` used by `User.set_password`; the
transaction body constructs the record, derives the password hash (which
may raise) and adds the record to storage. -/
def create_user (hashPassword : String → Except PyErr String)
    (db : List User) (name : Option String) (email : Option String)
    (password : String) (role : String) (status : Nat) :
    Except PyErr (Option User) × List User :=
  if email_is_available db email then
    match email with
    | none => (.ok none, db)
    | some e =>
      match txnRun db (fun dbs =>
        match hashPassword password with
        | .error err => .error err
        | .ok h =>
          let user : User :=
            { name := name, email := e, password_hash := h, status := status,
              role := role, login_token := none, deleted := false }
          .ok (dbs ++ [user], user)) with
      | (.ok user, db2) => (.ok (some user), db2)
      | (.error err, db2) => (.error err, db2)
  else (.ok none, db)

/-- A SQLAlchemy `Column` as the introspector reads it: its `key`, the
string rendering of its type (`str(column.type)`), the table it belongs
to, whether its `foreign_keys` set is non-empty, and its `primary_key`
flag. -/
structure SAColumn where
  key : String
  ctype : String
  table : String
  foreignKeys : Bool
  primaryKey : Bool
deriving Repr, DecidableEq

/-- The `direction` of a SQLAlchemy relationship property. -/
inductive Direction
  | manytoone
  | onetomany
  | manytomany
deriving Repr, DecidableEq

/-- A mapper property as yielded by `get_model_property_iterator`: either
a relationship property (it has a `direction`) or a column property (it
has a `columns` list). -/
inductive ModelProperty
  | rel (key : String) (dir : Direction)
  | col (key : String) (cols : List SAColumn)
deriving Repr, DecidableEq

/-- The `key` of a mapper property. -/
def ModelProperty.key : ModelProperty → String
  | .rel k _ => k
  | .col k _ => k

/-- A mapped entity type: its table and its mapper properties in
declaration order. -/
structure SAModel where
  table : String
  props : List ModelProperty
deriving Repr, DecidableEq

/-- The `Column` namedtuple produced by `register_model_view`:
`(name, type, is_primary_key, is_relationship, is_sortable)`. -/
structure ColumnDescr where
  name : String
  ctype : Option String
  is_primary_key : Bool
  is_relationship : Bool
  is_sortable : Bool
deriving Repr, DecidableEq

/-- The property loop of `logic.register_model_view` over the remaining
mapper properties.  A multi-column property raises `NameError`: the
source's filter predicate `lambda x: c.table == model.__table__` refers
to `c`, a name that is defined neither in the function nor in the module,
so its first invocation raises.  An empty `columns` list would make
`p.columns[0]` raise `IndexError`. -/
def registerProps (exclude includeL : List String) :
    List ModelProperty → Except PyErr (List ColumnDescr)
  | [] => .ok []
  | p :: rest =>
    if p.key ∈ exclude then registerProps exclude includeL rest
    else if 0 < includeL.length ∧ p.key ∉ includeL then
      registerProps exclude includeL rest
    else
      match p with
      | .rel k dir =>
        if dir = .manytoone then
          match registerProps exclude includeL rest with
          | .ok cs => .ok (⟨k, none, false, true, false⟩ :: cs)
          | .error err => .error err
        else registerProps exclude includeL rest
      | .col k cols =>
        if 1 < cols.length then .error .nameError
        else
          match cols with
          | [] => .error .indexError
          | c :: _ =>
            if c.foreignKeys then registerProps exclude includeL rest
            else if c.primaryKey then
              match registerProps exclude includeL rest with
              | .ok cs => .ok (⟨c.key, some c.ctype, true, false, false⟩ :: cs)
              | .error err => .error err
            else
              match registerProps exclude includeL rest with
              | .ok cs => .ok (⟨k, some c.ctype, false, false, true⟩ :: cs)
              | .error err => .error err

/-- Embedding of `logic.register_model_view`. -/
def register_model_view (model : SAModel)
    (exclude : List String := []) (includeL : List String := []) :
    Except PyErr (List ColumnDescr) :=
  registerProps exclude includeL model.props

/-- Does a field carry `is_primary_key` information, i.e. is it backed by
a single primary-key column? -/
def ModelProperty.isPrimaryKeyField : ModelProperty → Bool
  | .col _ [c] => c.primaryKey
  | _ => false

/-- Is a field backed by a single primary-key column that is not a
foreign key? -/
def ModelProperty.isNonFkPrimaryKeyField : ModelProperty → Bool
  | .col _ [c] => c.primaryKey && !c.foreignKeys
  | _ => false

/-- Is a field backed by a foreign-key column? -/
def ModelProperty.fkBacked : ModelProperty → Bool
  | .col _ [c] => c.foreignKeys
  | _ => false

/-- Is a field a relationship that is not many-to-one? -/
def ModelProperty.isNonManyToOneRel : ModelProperty → Bool
  | .rel _ d => decide (d ≠ .manytoone)
  | _ => false

/-- The Team-like entity of the spec's concrete scenario: fields
id (pk), name (plain), creator_id (fk), owner_id (fk), and the
many-to-one relationships creator and owner (`src/models.py`). -/
def teamLike : SAModel :=
  { table := "team",
    props :=
      [.col "id" [⟨"id", "INTEGER", "team", false, true⟩],
       .col "name" [⟨"name", "VARCHAR(255)", "team", false, false⟩],
       .col "creator_id" [⟨"creator_id", "INTEGER", "team", true, false⟩],
       .col "owner_id" [⟨"owner_id", "INTEGER", "team", true, false⟩],
       .rel "creator" .manytoone,
       .rel "owner" .manytoone] }

/-- An entity whose primary key is backed by a foreign-key column and
which carries a one-to-many relationship (as the `members` backref on
`Team` or the `memberships` backref on `User` do). -/
def memberLike : SAModel :=
  { table := "team_member",
    props :=
      [.col "tid" [⟨"tid", "INTEGER", "team_member", true, true⟩],
       .col "label" [⟨"label", "VARCHAR", "team_member", false, false⟩],
       .rel "members" .onetomany] }

/-- An entity with a field backed by a composite (two-column) key,
exactly one of whose candidate columns belongs to the entity's own
table. -/
def compositeLike : SAModel :=
  { table := "child",
    props :=
      [.col "pair"
        [⟨"a", "INTEGER", "child", false, true⟩,
         ⟨"b", "INTEGER", "other", false, true⟩]] }

/-- The `columns` list of a mapper property (empty for relationships,
which have no `columns` attribute). -/
def ModelProperty.columns : ModelProperty → List SAColumn
  | .rel _ _ => []
  | .col _ cs => cs

/-- The descriptor that `register_model_view` produces for one mapper
property, or `none` when the property is skipped.  This is the
per-property summary of the loop body of `registerProps` on the
non-raising paths. -/
def descrOf (exclude includeL : List String) (p : ModelProperty) :
    Option ColumnDescr :=
  if p.key ∈ exclude then none
  else if 0 < includeL.length ∧ p.key ∉ includeL then none
  else
    match p with
    | .rel k d =>
      if d = .manytoone then some ⟨k, none, false, true, false⟩ else none
    | .col k cs =>
      match cs with
      | [c] =>
        if c.foreignKeys then none
        else if c.primaryKey then some ⟨c.key, some c.ctype, true, false, false⟩
        else some ⟨k, some c.ctype, false, false, true⟩
      | _ => none

/-- When the property loop returns normally, its output is exactly the
per-property summaries of the properties, in order. -/
lemma registerProps_ok_eq (exclude includeL : List String)
    (props : List ModelProperty) :
    ∀ (cols : List ColumnDescr),
      registerProps exclude includeL props = .ok cols →
      cols = props.filterMap (descrOf exclude includeL) := by
  induction props with
  | nil =>
    intro cols hok
    simp only [registerProps, Except.ok.injEq] at hok
    simp [← hok]
  | cons p rest ih =>
    intro cols hok
    cases p with
    | rel k d =>
      simp only [registerProps, ModelProperty.key] at hok
      rw [List.filterMap_cons]
      split_ifs at hok with h1 h2 h3
      · simp only [descrOf, ModelProperty.key, h1, if_pos]
        exact ih cols hok
      · rw [show descrOf exclude includeL (.rel k d) = none by
          simp [descrOf, ModelProperty.key, h1, h2.1, h2.2]]
        exact ih cols hok
      · cases hr : registerProps exclude includeL rest with
        | ok cs =>
          simp only [hr] at hok
          cases hok
          rw [show descrOf exclude includeL (.rel k d) =
              some ⟨k, none, false, true, false⟩ by
            simp [descrOf, ModelProperty.key, h1, h2, h3]]
          rw [← ih cs hr]
        | error e =>
          rw [hr] at hok
          exact Except.noConfusion hok
      · rw [show descrOf exclude includeL (.rel k d) = none by
          simp [descrOf, ModelProperty.key, h1, h2, h3]]
        exact ih cols hok
    | col k cs =>
      simp only [registerProps, ModelProperty.key] at hok
      rw [List.filterMap_cons]
      by_cases h1 : k ∈ exclude
      · rw [if_pos h1] at hok
        simp only [descrOf, ModelProperty.key, h1, if_pos]
        exact ih cols hok
      · rw [if_neg h1] at hok
        by_cases h2 : 0 < includeL.length ∧ k ∉ includeL
        · rw [if_pos h2] at hok
          rw [show descrOf exclude includeL (.col k cs) = none by
            simp [descrOf, ModelProperty.key, h1, h2.1, h2.2]]
          exact ih cols hok
        · rw [if_neg h2] at hok
          by_cases h3 : 1 < cs.length
          · -- composite column list: the loop raised NameError
            rw [if_pos h3] at hok
            exact Except.noConfusion hok
          · rw [if_neg h3] at hok
            rcases cs with _ | ⟨c, _ | ⟨c2, cs2⟩⟩
            · exact Except.noConfusion hok
            · simp only [] at hok
              split_ifs at hok with h4 h5
              · rw [show descrOf exclude includeL (.col k [c]) = none by
                  simp [descrOf, ModelProperty.key, h1, h2, h4]]
                exact ih cols hok
              · cases hr : registerProps exclude includeL rest with
                | ok cs' =>
                  simp only [hr] at hok
                  cases hok
                  rw [show descrOf exclude includeL (.col k [c]) =
                      some ⟨c.key, some c.ctype, true, false, false⟩ by
                    simp [descrOf, ModelProperty.key, h1, h2, h4, h5]]
                  rw [← ih cs' hr]
                | error e =>
                  rw [hr] at hok
                  exact Except.noConfusion hok
              · cases hr : registerProps exclude includeL rest with
                | ok cs' =>
                  simp only [hr] at hok
                  cases hok
                  rw [show descrOf exclude includeL (.col k [c]) =
                      some ⟨k, some c.ctype, false, false, true⟩ by
                    simp [descrOf, ModelProperty.key, h1, h2, h4, h5]]
                  rw [← ih cs' hr]
                | error e =>
                  rw [hr] at hok
                  exact Except.noConfusion hok
            · exact absurd (by simp only [List.length_cons]; omega) h3

/-- Unfolding of the property loop at a relationship property when both
filter lists are empty. -/
lemma registerProps_nil_rel (k : String) (d : Direction)
    (rest : List ModelProperty) :
    registerProps [] [] (ModelProperty.rel k d :: rest) =
      (if d = .manytoone then
        match registerProps [] [] rest with
        | .ok cs => .ok (⟨k, none, false, true, false⟩ :: cs)
        | .error err => .error err
      else registerProps [] [] rest) := rfl

/-- Unfolding of the property loop at a column property when both filter
lists are empty. -/
lemma registerProps_nil_col (k : String) (cs : List SAColumn)
    (rest : List ModelProperty) :
    registerProps [] [] (ModelProperty.col k cs :: rest) =
      (if 1 < cs.length then .error .nameError
      else
        match cs with
        | [] => .error .indexError
        | c :: _ =>
          if c.foreignKeys then registerProps [] [] rest
          else if c.primaryKey then
            match registerProps [] [] rest with
            | .ok cs' => .ok (⟨c.key, some c.ctype, true, false, false⟩ :: cs')
            | .error err => .error err
          else
            match registerProps [] [] rest with
            | .ok cs' => .ok (⟨k, some c.ctype, false, false, true⟩ :: cs')
            | .error err => .error err) := rfl

/-- With empty filters, a normal return accounts for every property: the
properties split into the reported ones, the foreign-key-backed ones and
the relationships that are not many-to-one; and the reported primary-key
flags are exactly the non-foreign-key primary-key fields. -/
lemma registerProps_count (props : List ModelProperty) :
    ∀ (cols : List ColumnDescr),
      registerProps [] [] props = .ok cols →
      props.length = cols.length
          + (props.filter ModelProperty.fkBacked).length
          + (props.filter ModelProperty.isNonManyToOneRel).length
      ∧ (cols.filter (fun d => d.is_primary_key)).length
          = (props.filter ModelProperty.isNonFkPrimaryKeyField).length := by
  induction props with
  | nil =>
    intro cols hok
    simp only [registerProps, Except.ok.injEq] at hok
    subst hok
    simp
  | cons p rest ih =>
    intro cols hok
    rcases p with ⟨k, d⟩ | ⟨k, cs⟩
    · rw [registerProps_nil_rel] at hok
      by_cases hd : d = Direction.manytoone
      · rw [if_pos hd] at hok
        cases hr : registerProps [] [] rest with
        | ok cs' =>
          simp only [hr] at hok
          cases hok
          have h := ih cs' hr
          subst hd
          refine ⟨?_, ?_⟩
          · simp only [List.filter_cons, ModelProperty.fkBacked,
              ModelProperty.isNonManyToOneRel, List.length_cons]
            simp only [decide_not]
            simp
            omega
          · simp only [List.filter_cons, ModelProperty.isNonFkPrimaryKeyField]
            simp [h.2]
        | error e =>
          rw [hr] at hok
          exact Except.noConfusion hok
      · rw [if_neg hd] at hok
        have h := ih cols hok
        refine ⟨?_, ?_⟩
        · simp only [List.filter_cons, ModelProperty.fkBacked,
            ModelProperty.isNonManyToOneRel, List.length_cons]
          simp [hd]
          omega
        · simp only [List.filter_cons, ModelProperty.isNonFkPrimaryKeyField]
          simp [h.2]
    · rw [registerProps_nil_col] at hok
      by_cases h3 : 1 < cs.length
      · rw [if_pos h3] at hok
        exact Except.noConfusion hok
      · rw [if_neg h3] at hok
        rcases cs with _ | ⟨c, _ | ⟨c2, cs2⟩⟩
        · exact Except.noConfusion hok
        · simp only [] at hok
          by_cases hfk : c.foreignKeys
          · rw [if_pos hfk] at hok
            have h := ih cols hok
            refine ⟨?_, ?_⟩
            · simp only [List.filter_cons, ModelProperty.fkBacked,
                ModelProperty.isNonManyToOneRel, List.length_cons]
              simp [hfk]
              omega
            · simp only [List.filter_cons, ModelProperty.isNonFkPrimaryKeyField]
              simp [hfk, h.2]
          · rw [if_neg hfk] at hok
            by_cases hpk : c.primaryKey
            · rw [if_pos hpk] at hok
              cases hr : registerProps [] [] rest with
              | ok cs' =>
                simp only [hr] at hok
                cases hok
                have h := ih cs' hr
                refine ⟨?_, ?_⟩
                · simp only [List.filter_cons, ModelProperty.fkBacked,
                    ModelProperty.isNonManyToOneRel, List.length_cons]
                  simp [hfk]
                  omega
                · simp only [List.filter_cons, ModelProperty.isNonFkPrimaryKeyField]
                  simp [hfk, hpk, h.2]
              | error e =>
                rw [hr] at hok
                exact Except.noConfusion hok
            · rw [if_neg hpk] at hok
              cases hr : registerProps [] [] rest with
              | ok cs' =>
                simp only [hr] at hok
                cases hok
                have h := ih cs' hr
                refine ⟨?_, ?_⟩
                · simp only [List.filter_cons, ModelProperty.fkBacked,
                    ModelProperty.isNonManyToOneRel, List.length_cons]
                  simp [hfk]
                  omega
                · simp only [List.filter_cons, ModelProperty.isNonFkPrimaryKeyField]
                  simp [hfk, hpk, h.2]
              | error e =>
                rw [hr] at hok
                exact Except.noConfusion hok
        · exact absurd (by simp only [List.length_cons]; omega) h3

/-- Every produced descriptor is named after its originating property
(provided the property's backing columns share its key, as declarative
mapping guarantees), and the originating property passed both filters and
is not backed by a foreign-key column. -/
lemma descrOf_name (exclude includeL : List String) (p : ModelProperty)
    (d : ColumnDescr) (hk : ∀ c ∈ p.columns, c.key = p.key)
    (h : descrOf exclude includeL p = some d) :
    d.name = p.key ∧ p.key ∉ exclude
      ∧ (0 < includeL.length → p.key ∈ includeL)
      ∧ p.fkBacked = false := by
  rw [descrOf.eq_def] at h
  by_cases h1 : p.key ∈ exclude
  · rw [if_pos h1] at h
    exact Option.noConfusion h
  · rw [if_neg h1] at h
    by_cases h2 : 0 < includeL.length ∧ p.key ∉ includeL
    · rw [if_pos h2] at h
      exact Option.noConfusion h
    · rw [if_neg h2] at h
      have hinc : 0 < includeL.length → p.key ∈ includeL := by
        intro hl
        by_contra hni
        exact h2 ⟨hl, hni⟩
      rcases p with ⟨k, dir⟩ | ⟨k, cs⟩
      · simp only [] at h
        by_cases hd : dir = Direction.manytoone
        · rw [if_pos hd] at h
          cases h
          exact ⟨rfl, h1, hinc, rfl⟩
        · rw [if_neg hd] at h
          exact Option.noConfusion h
      · rcases cs with _ | ⟨c, _ | ⟨c2, cs2⟩⟩
        · exact Option.noConfusion h
        · simp only [] at h
          have hck : c.key = ModelProperty.key (.col k [c]) :=
            hk c (by simp [ModelProperty.columns])
          by_cases hfk : c.foreignKeys
          · rw [if_pos hfk] at h
            exact Option.noConfusion h
          · rw [if_neg hfk] at h
            by_cases hpk : c.primaryKey
            · rw [if_pos hpk] at h
              cases h
              refine ⟨hck, h1, hinc, ?_⟩
              simp [ModelProperty.fkBacked, hfk]
            · rw [if_neg hpk] at h
              cases h
              refine ⟨rfl, h1, hinc, ?_⟩
              simp [ModelProperty.fkBacked, hfk]
        · exact Option.noConfusion h

/-- An email bound to some stored record is reported unavailable. -/
lemma email_unavailable_of_mem {db : List User} {e : String} {u : User}
    (hu : u ∈ db) (he : u.email = e) :
    email_is_available db (some e) = false := by
  unfold email_is_available queryFirstByEmail
  cases hfind : db.find? (fun v => v.email == e) with
  | some v => simp [hfind]
  | none =>
    exact absurd (List.find?_eq_none.mp hfind u hu) (by simp [he])

/-- The descriptor list that `register_model_view` yields for the
Team-like entity with empty filters. -/
def teamDescrs : List ColumnDescr :=
  [⟨"id", some "INTEGER", true, false, false⟩,
   ⟨"name", some "VARCHAR(255)", false, false, true⟩,
   ⟨"creator", none, false, true, false⟩,
   ⟨"owner", none, false, true, false⟩]

/-- An active account used in concrete scenarios. -/
def activeUser : User :=
  { name := some "Ann", email := "ann@x.com", password_hash := "hash1",
    status := 1, role := "admin", login_token := some "tok-active",
    deleted := false }

/-- A blocked account used in concrete scenarios. -/
def blockedUser : User :=
  { name := some "Bob", email := "bob@x.com", password_hash := "hash2",
    status := 0, role := "user", login_token := some "tok-blocked",
    deleted := false }

/-- A two-account storage state used in concrete scenarios. -/
def authDb : List User := [activeUser, blockedUser]

/-- A fresh request context whose session carries the blocked account's
token. -/
def ctxBlockedStart : RequestCtx :=
  { gUser := none, sessionToken := some (some "tok-blocked") }

/-- The request context after the first resolution of the blocked
account: the blocked record is cached in `g.user` and the session token
entry has been overwritten with `None`. -/
def ctxBlockedAfter : RequestCtx :=
  { gUser := some (some blockedUser), sessionToken := some none }

/-- C1: on a fresh request context, a session with no token yields the
anonymous state and a token of an active user yields that user, and a
token of a blocked user yields the anonymous state — but a token that
resolves to no user makes `get_current_user` raise `AttributeError`
(it dereferences `.status` on the `None` returned by the lookup) instead
of yielding the anonymous state, contradicting the claim that no
exception is raised. -/
theorem C1_auth_gate_unknown_token_raises :
    get_current_user authDb { gUser := none, sessionToken := none } =
      .ok (none, { gUser := none, sessionToken := none })
  ∧ (get_current_user authDb
      { gUser := none, sessionToken := some (some "tok-active") }).map Prod.fst =
      .ok (some activeUser)
  ∧ (get_current_user authDb
      { gUser := none, sessionToken := some (some "tok-blocked") }).map Prod.fst =
      .ok none
  ∧ get_current_user authDb
      { gUser := none, sessionToken := some (some "tok-gone") } =
      .error .attributeError := by
  refine ⟨rfl, ?_, ?_, ?_⟩ <;> decide

/-- C4: resolving the current user for a session token of a blocked user
yields the anonymous state and clears the stale token on the first
resolution, but the blocked record is cached in `g.user`, so the second
resolution during the same request returns the blocked user and reports
the request as authenticated — contradicting the claim that every
resolution yields the anonymous state. -/
theorem C4_blocked_user_cached_and_returned_on_second_resolution :
    get_current_user [blockedUser] ctxBlockedStart = .ok (none, ctxBlockedAfter)
  ∧ get_current_user [blockedUser] ctxBlockedAfter =
      .ok (some blockedUser, ctxBlockedAfter)
  ∧ is_authenticated [blockedUser] ctxBlockedAfter =
      .ok (true, ctxBlockedAfter) := by
  refine ⟨?_, ?_, ?_⟩ <;> decide

/-- C5: a view wrapped by `login_required` runs unconditionally on an
OPTIONS request or when `LOGIN_DISABLED` is set, but on any other request
the guard raises `AttributeError` instead of dispatching on the
authentication state, because the `Security` object of `src/app.py`
defines no `is_authenticated` attribute — so an anonymous request never
reaches the "unauthorized" handler, contradicting the claim. -/
theorem C5_login_required_guard :
    login_required "OPTIONS" false appSecurity = .ok .viewRan
  ∧ login_required "OPTIONS" true appSecurity = .ok .viewRan
  ∧ login_required "GET" true appSecurity = .ok .viewRan
  ∧ login_required "POST" true appSecurity = .ok .viewRan
  ∧ login_required "GET" false appSecurity = .error .attributeError
  ∧ login_required "POST" false appSecurity = .error .attributeError := by
  refine ⟨?_, ?_, ?_, ?_, ?_, ?_⟩ <;> decide

/-- C9: on a field backed by a composite two-column key of which exactly
one candidate column belongs to the entity's own table, the introspector
raises `NameError` (its filter predicate refers to the undefined name
`c`) instead of locating that column or skipping the field, contradicting
the claim. -/
theorem C9_composite_key_field_raises_name_error :
    (([⟨"a", "INTEGER", "child", false, true⟩,
       ⟨"b", "INTEGER", "other", false, true⟩] : List SAColumn).filter
        (fun c => c.table == compositeLike.table)).length = 1
  ∧ register_model_view compositeLike [] [] = .error .nameError := by
  refine ⟨?_, ?_⟩ <;> decide

/-- C10: `logout` is total and idempotent: from any request context it
leaves the session without a login-token entry and the cached current
user cleared to `None`, and applying it twice equals applying it once. -/
theorem C10_logout_total_and_idempotent (ctx : RequestCtx) :
    (logout ctx).sessionToken = none
  ∧ (logout ctx).gUser = some none
  ∧ logout (logout ctx) = logout ctx := by
  unfold logout
  rcases ctx with ⟨g, t⟩
  rcases t with _ | t <;> simp

/-- C6 counterexample: introspecting the Team-like entity with empty
filters yields four descriptors (id, name, creator, owner), not three as
the claim states. -/
theorem C6_cex_team_like_yields_four_descriptors :
    (register_model_view teamLike [] []).map List.length = .ok 4
  ∧ (register_model_view teamLike [] []).map List.length ≠ .ok 3 := by
  refine ⟨?_, ?_⟩ <;> decide

/-- C7 counterexample: for an entity with a one-to-many relationship and
a primary key backed by a foreign-key column, introspection with empty
filters returns one descriptor although the entity has three declared
fields of which one is backed by a foreign key (so the claim predicts
two), and the returned `is_primary_key` flags sum to zero although the
entity has one primary-key field. -/
theorem C7_cex_non_manytoone_relationship_dropped :
    (register_model_view memberLike [] []).map List.length = .ok 1
  ∧ memberLike.props.length
      - (memberLike.props.filter ModelProperty.fkBacked).length = 2
  ∧ (register_model_view memberLike [] []).map
      (fun cs => (cs.filter (fun d => d.is_primary_key)).length) = .ok 0
  ∧ (memberLike.props.filter ModelProperty.isPrimaryKeyField).length = 1 := by
  refine ⟨?_, ?_, ?_, ?_⟩ <;> decide

/-- C6 (amended): every declared field that passes the include/exclude
filters is classified as claimed — a many-to-one relationship field
yields a descriptor with no semantic type, `is_relationship` set and not
sortable; a field backed by a single non-foreign-key primary-key column
yields `is_primary_key` set, not sortable, with its semantic type; any
other field backed by a single non-foreign-key column yields a sortable
column with its semantic type — and the Team-like entity yields exactly
the four descriptors id, name, creator and owner, with creator_id and
owner_id suppressed. -/
theorem C6_field_classification :
    (∀ (m : SAModel) (exclude includeL : List String)
       (cols : List ColumnDescr) (p : ModelProperty),
       register_model_view m exclude includeL = .ok cols →
       p ∈ m.props →
       p.key ∉ exclude →
       (0 < includeL.length → p.key ∈ includeL) →
       ((∀ k, p = .rel k .manytoone →
           (⟨k, none, false, true, false⟩ : ColumnDescr) ∈ cols)
      ∧ (∀ k c, p = .col k [c] → c.foreignKeys = false → c.primaryKey = true →
           (⟨c.key, some c.ctype, true, false, false⟩ : ColumnDescr) ∈ cols)
      ∧ (∀ k c, p = .col k [c] → c.foreignKeys = false → c.primaryKey = false →
           (⟨k, some c.ctype, false, false, true⟩ : ColumnDescr) ∈ cols)))
  ∧ register_model_view teamLike [] [] = .ok teamDescrs := by
  constructor
  · intro m exclude includeL cols p hok hp hex hinc
    have hcols := registerProps_ok_eq exclude includeL m.props cols hok
    subst hcols
    have hpass : ¬(0 < includeL.length ∧ p.key ∉ includeL) := by
      rintro ⟨hl, hni⟩
      exact hni (hinc hl)
    refine ⟨?_, ?_, ?_⟩
    · rintro k rfl
      refine List.mem_filterMap.mpr ⟨_, hp, ?_⟩
      rw [descrOf.eq_def, if_neg hex, if_neg hpass]
      rfl
    · rintro k c rfl hfk hpk
      refine List.mem_filterMap.mpr ⟨_, hp, ?_⟩
      rw [descrOf.eq_def, if_neg hex, if_neg hpass]
      simp [hfk, hpk]
    · rintro k c rfl hfk hpk
      refine List.mem_filterMap.mpr ⟨_, hp, ?_⟩
      rw [descrOf.eq_def, if_neg hex, if_neg hpass]
      simp [hfk, hpk]
  · decide

/-- Witness for C6: instantiated at the Team-like entity, the creator
relationship is reported as a relationship descriptor. -/
theorem C6_field_classification_witness :
    (⟨"creator", none, false, true, false⟩ : ColumnDescr) ∈ teamDescrs :=
  (C6_field_classification.1 teamLike [] [] teamDescrs
      (ModelProperty.rel "creator" Direction.manytoone)
      (by decide) (by decide) (by decide) (by decide)).1
    "creator" rfl

/-- C7 (amended): whenever introspection with empty filters returns
normally, it returns exactly one descriptor per declared field minus the
fields backed by a foreign-key column and minus the relationship fields
that are not many-to-one, and the number of returned descriptors with
`is_primary_key` set equals the number of primary-key fields not backed
by a foreign-key column. -/
theorem C7_descriptor_count (m : SAModel) (cols : List ColumnDescr)
    (hok : register_model_view m [] [] = .ok cols) :
    cols.length = m.props.length
        - (m.props.filter ModelProperty.fkBacked).length
        - (m.props.filter ModelProperty.isNonManyToOneRel).length
  ∧ (cols.filter (fun d => d.is_primary_key)).length
      = (m.props.filter ModelProperty.isNonFkPrimaryKeyField).length := by
  have h := registerProps_count m.props cols hok
  exact ⟨by omega, h.2⟩

/-- Witness for C7: instantiated at the Team-like entity. -/
theorem C7_descriptor_count_witness :
    teamDescrs.length = teamLike.props.length
        - (teamLike.props.filter ModelProperty.fkBacked).length
        - (teamLike.props.filter ModelProperty.isNonManyToOneRel).length
  ∧ (teamDescrs.filter (fun d => d.is_primary_key)).length
      = (teamLike.props.filter ModelProperty.isNonFkPrimaryKeyField).length :=
  C7_descriptor_count teamLike teamDescrs (by decide)

/-- C8: for every exclude and include list, over an entity whose
column-backed fields use their property key as column key (as
declarative mapping does) and whose property keys are distinct: no
returned descriptor is named in `exclude`; when `include` is non-empty
every returned descriptor is named in it; and no returned descriptor is
named after a field backed by a foreign-key column, even one named in
`include`. -/
theorem C8_filter_contract (m : SAModel) (exclude includeL : List String)
    (cols : List ColumnDescr)
    (hkeys : ∀ p ∈ m.props, ∀ c ∈ p.columns, c.key = p.key)
    (hnodup : (m.props.map ModelProperty.key).Nodup)
    (hok : register_model_view m exclude includeL = .ok cols) :
    (∀ d ∈ cols, d.name ∉ exclude)
  ∧ (0 < includeL.length → ∀ d ∈ cols, d.name ∈ includeL)
  ∧ (∀ p ∈ m.props, p.fkBacked = true → ∀ d ∈ cols, d.name ≠ p.key) := by
  have hcols := registerProps_ok_eq exclude includeL m.props cols hok
  subst hcols
  have key_facts : ∀ d ∈ m.props.filterMap (descrOf exclude includeL),
      ∃ p ∈ m.props, d.name = p.key ∧ p.key ∉ exclude
        ∧ (0 < includeL.length → p.key ∈ includeL) ∧ p.fkBacked = false := by
    intro d hd
    obtain ⟨p, hp, hsome⟩ := List.mem_filterMap.mp hd
    obtain ⟨h1, h2, h3, h4⟩ := descrOf_name exclude includeL p d (hkeys p hp) hsome
    exact ⟨p, hp, h1, h2, h3, h4⟩
  refine ⟨?_, ?_, ?_⟩
  · intro d hd
    obtain ⟨p, _, hname, hex, _, _⟩ := key_facts d hd
    rw [hname]
    exact hex
  · intro hl d hd
    obtain ⟨p, _, hname, _, hinc, _⟩ := key_facts d hd
    rw [hname]
    exact hinc hl
  · intro q hq hqfk d hd hcontra
    obtain ⟨p, hp, hname, _, _, hpfk⟩ := key_facts d hd
    have hpq : p = q :=
      List.inj_on_of_nodup_map hnodup hp hq (by rw [← hname, hcontra])
    rw [hpq, hqfk] at hpfk
    exact Bool.noConfusion hpfk

/-- Witness for C8: instantiated at the Team-like entity with `name`
excluded and `include` naming id, creator and the foreign-key-backed
owner_id. -/
theorem C8_filter_contract_witness :
    (∀ d ∈ ([⟨"id", some "INTEGER", true, false, false⟩,
             ⟨"creator", none, false, true, false⟩] : List ColumnDescr),
       d.name ∉ ["name"])
  ∧ (0 < (["id", "creator", "owner_id"] : List String).length →
       ∀ d ∈ ([⟨"id", some "INTEGER", true, false, false⟩,
               ⟨"creator", none, false, true, false⟩] : List ColumnDescr),
         d.name ∈ ["id", "creator", "owner_id"])
  ∧ (∀ p ∈ teamLike.props, p.fkBacked = true →
       ∀ d ∈ ([⟨"id", some "INTEGER", true, false, false⟩,
               ⟨"creator", none, false, true, false⟩] : List ColumnDescr),
         d.name ≠ p.key) :=
  C8_filter_contract teamLike ["name"] ["id", "creator", "owner_id"]
    [⟨"id", some "INTEGER", true, false, false⟩,
     ⟨"creator", none, false, true, false⟩]
    (by decide) (by decide) (by decide)

/-- An email that no stored record carries is reported available. -/
lemma email_available_of_fresh {db : List User} {e : String}
    (hfresh : ∀ u ∈ db, u.email ≠ e) :
    email_is_available db (some e) = true := by
  unfold email_is_available queryFirstByEmail
  simp only []
  rw [List.find?_eq_none.mpr (fun u hu => by simp [hfresh u hu])]
  rfl

/-- The record inserted by a successful `create_user` call. -/
def createdUser (name : Option String) (e : String) (h : String)
    (role : String) (status : Nat) : User :=
  { name := name, email := e, password_hash := h, status := status,
    role := role, login_token := none, deleted := false }

/-- A successful `create_user` call on a fresh email returns the created
record and appends it to storage. -/
lemma create_user_fresh_ok (hashPassword : String → Except PyErr String)
    (db : List User) (name : Option String) (e password role : String)
    (status : Nat) (h : String)
    (hhash : hashPassword password = .ok h)
    (hfresh : ∀ u ∈ db, u.email ≠ e) :
    create_user hashPassword db name (some e) password role status =
      (.ok (some (createdUser name e h role status)),
       db ++ [createdUser name e h role status]) := by
  unfold create_user txnRun
  rw [email_available_of_fresh hfresh]
  simp only [if_true]
  simp only [hhash]
  rfl

/-- A `create_user` call on an email bound to a stored record is a no-op
returning no record. -/
lemma create_user_bound_noop (hashPassword : String → Except PyErr String)
    (db : List User) (name : Option String) (e password role : String)
    (status : Nat) (u : User) (hu : u ∈ db) (he : u.email = e) :
    create_user hashPassword db name (some e) password role status =
      (.ok none, db) := by
  unfold create_user
  rw [email_unavailable_of_mem hu he]
  rfl

/-- C2: `create_user` with a null email, or an email already bound to an
existing non-deleted user, is a no-op that returns no created record and
raises nothing; and calling `create_user` twice with the same fresh email
makes the second call return no created record while storage holds
exactly one record with that email. -/
theorem C2_create_user_email_uniqueness :
    (∀ hashPassword db name password role status,
        create_user hashPassword db name none password role status =
          (.ok none, db))
  ∧ (∀ hashPassword db name e password role status,
        (∃ u ∈ db, u.deleted = false ∧ u.email = e) →
        create_user hashPassword db name (some e) password role status =
          (.ok none, db))
  ∧ (∀ hashPassword db name e password role status h,
        hashPassword password = .ok h →
        (∀ u ∈ db, u.email ≠ e) →
        ∀ hash2 name2 password2 role2 status2,
        (((create_user hashPassword db name (some e) password role status).2.filter
            (fun u => u.email == e)).length = 1
        ∧ create_user hash2
            (create_user hashPassword db name (some e) password role status).2
            name2 (some e) password2 role2 status2 =
            (.ok none,
             (create_user hashPassword db name (some e) password role status).2))) := by
  refine ⟨?_, ?_, ?_⟩
  · intro hashPassword db name password role status
    rfl
  · intro hashPassword db name e password role status hbound
    obtain ⟨u, hu, _, he⟩ := hbound
    exact create_user_bound_noop hashPassword db name e password role status u hu he
  · intro hashPassword db name e password role status h hhash hfresh
      hash2 name2 password2 role2 status2
    rw [create_user_fresh_ok hashPassword db name e password role status h hhash hfresh]
    refine ⟨?_, ?_⟩
    · rw [List.filter_append,
        List.filter_eq_nil_iff.mpr (fun u hu => by simp [hfresh u hu])]
      simp [createdUser]
    · exact create_user_bound_noop hash2 _ name2 e password2 role2 status2
        (createdUser name e h role status) (by simp) rfl

/-- Witness for C2: a concrete double creation of the same email on empty
storage. -/
theorem C2_create_user_email_uniqueness_witness :
    (((create_user (fun s => .ok s) [] (some "Ann") (some "ann@x.com")
          "pw123" "admin" 1).2.filter
        (fun u => u.email == "ann@x.com")).length = 1
    ∧ create_user (fun s => .ok s)
        (create_user (fun s => .ok s) [] (some "Ann") (some "ann@x.com")
          "pw123" "admin" 1).2
        (some "Ann") (some "ann@x.com") "pw123" "admin" 1 =
        (.ok none,
         (create_user (fun s => .ok s) [] (some "Ann") (some "ann@x.com")
           "pw123" "admin" 1).2)) :=
  C2_create_user_email_uniqueness.2.2 (fun s => .ok s) [] (some "Ann")
    "ann@x.com" "pw123" "admin" 1 "pw123" rfl (by simp)
    (fun s => .ok s) (some "Ann") "pw123" "admin" 1

/-- C3: a `create_user` call on an available email whose transaction body
raises (the password hashing fails) is rolled back: storage keeps zero
records with that email, and the failure propagates to the caller. -/
theorem C3_create_user_rollback (hashPassword : String → Except PyErr String)
    (db : List User) (name : Option String) (e password role : String)
    (status : Nat) (err : PyErr)
    (hfresh : ∀ u ∈ db, u.email ≠ e)
    (hfail : hashPassword password = .error err) :
    create_user hashPassword db name (some e) password role status =
      (.error err, db)
  ∧ ((create_user hashPassword db name (some e) password role status).2.filter
      (fun u => u.email == e)).length = 0 := by
  have hstep : create_user hashPassword db name (some e) password role status =
      (.error err, db) := by
    unfold create_user txnRun
    rw [email_available_of_fresh hfresh]
    simp only [if_true]
    simp only [hfail]
  refine ⟨hstep, ?_⟩
  rw [hstep]
  rw [List.filter_eq_nil_iff.mpr (fun u hu => by simp [hfresh u hu])]
  rfl

/-- Witness for C3: a concrete failing hash on a one-record storage with
a different email. -/
theorem C3_create_user_rollback_witness :
    create_user (fun _ => .error .hashError) [activeUser] (some "Eve")
      (some "eve@x.com") "pw" "user" 1 =
      (.error .hashError, [activeUser])
  ∧ ((create_user (fun _ => .error .hashError) [activeUser] (some "Eve")
      (some "eve@x.com") "pw" "user" 1).2.filter
      (fun u => u.email == "eve@x.com")).length = 0 :=
  C3_create_user_rollback (fun _ => .error .hashError) [activeUser]
    (some "Eve") "eve@x.com" "pw" "user" 1 .hashError (by decide) rfl

end FlaskBP
